import Mathlib

/-!
Shallow embedding of `src/search.js` (`GenericFormWithSearchResults`).

The component is single-threaded and event-loop driven: external events are
user triggers of the search flow (`clear` / `submit` / `blur` on the search
input, all bound to `_togglePopupVisibility`) and settlements of the
underlying fetch promises.  Between two external events the microtask queue
drains completely, and within one drain the effects of each flow happen in a
fixed per-flow order, so we model each external event as an atomic state
transformation that runs the resulting promise-reaction cascade to
quiescence:

* `processTrigger` embeds the synchronous part of
  `_togglePopupVisibility` / `_refreshSearchResults` /
  `_loadSearchResultsIntoTable` / `_fetchResultsSingle` for one trigger:
  the structural-equality skip check against `_lastSearchCriteria`, the
  invocation of the stored `_rejectLastSearchRequest` capability, and the
  issuing of a new fetch; invoking the capability rejects the superseded
  flow's promise with `PromiseRejectedError('Request is cancelled')`, whose
  reaction cascade (the indiscriminate `catch` in
  `_loadSearchResultsIntoTable`, the collection reset, the
  `_lastSearchCriteria` write and the popup / collapse update in
  `_togglePopupVisibility`) runs in the same drain and is inlined here.
* `processSettle` embeds the settlement of one underlying fetch: the
  `then` handlers installed in `_fetchResultsSingle` null
  `_rejectLastSearchRequest` unconditionally and resolve / reject the flow's
  promise; if that promise was already rejected by a supersede, nothing else
  happens, otherwise the rest of the flow runs.

Data model choices, all read off the source:

* `Criteria` is `Option String`: `none` is the empty mapping computed when
  the component is not rendered, `some s` is the one-field mapping
  FirstName = s built from the input's value; `_.isEqual` on these objects
  is decidable equality on `Option String`.
* the results collection is a `List Row` for an abstract row type; Backbone's
  `reset` fires the `reset` event, whose listener
  `_refreshCollapsingStatusOfTheResultsView` recomputes the collapse class,
  so every write to `collection` updates `collapsed` alongside.
* the form's error list is a `List ErrorEntry`;
  `removeModelsOfGroup(group).add(entry)` is `replaceGroup`.
* `prepare` is the caller-supplied `prepareResults` transform (`identity`
  when none is given), applied by `_prepareDataForResultsView`.
-/

/-- A search criteria object: `none` for the empty mapping `\x7b\x7d` used while the
component is unrendered, `some s` for the one-field mapping FirstName = s. -/
abbrev Criteria := Option String

/-- One entry of the form model's observable error list. -/
structure ErrorEntry where
  group : String
  message : String
deriving DecidableEq

/-- The fixed group tag used by `_loadSearchResultsIntoTable` for fetch errors. -/
def fetchErrorGroup : String := "fetchResultsForCriteria::fetchDataError"

/-- Embeds `getErrors().removeModelsOfGroup(group).add(entry)`: drop every
entry of the group, then append one fresh entry. -/
def replaceGroup (g msg : String) (errs : List ErrorEntry) : List ErrorEntry :=
  errs.filter (fun e => !(e.group == g)) ++ [⟨g, msg⟩]

/-- Number of error entries carrying a given group tag. -/
def countGroup (g : String) (errs : List ErrorEntry) : Nat :=
  (errs.filter (fun e => e.group == g)).length

/-- One outstanding underlying fetch: its issue id (issue order), the criteria
it was issued for, and whether its flow's promise has already been rejected by
the supersede capability (`cancelled`). -/
structure PendingFetch where
  id : Nat
  criteria : Criteria
  cancelled : Bool
deriving DecidableEq

/-- The mutable state of one `GenericFormWithSearchResults` instance together
with its collaborators' observable state. -/
structure WidgetState (Row : Type) where
  /-- The field `_lastSearchCriteria` (initially the empty mapping). -/
  lastSearchCriteria : Criteria
  /-- The field `_rejectLastSearchRequest`: `some fid` when the stored
  capability would reject the flow of fetch `fid`, `none` when it is null. -/
  rejectSlot : Option Nat
  /-- Contents of `this._resultsView.collection`. -/
  collection : List Row
  /-- Contents of `this._formView.model.getErrors()`. -/
  errors : List ErrorEntry
  /-- popup visibility (`getPopup().show()` / `.hide()`); dropdowns start hidden. -/
  popup : Bool
  /-- whether the root element carries the `HIDE_RESULTS_LIST` collapse class. -/
  collapsed : Bool
  /-- underlying fetches issued but not yet settled. -/
  pending : List PendingFetch
  /-- next fetch issue id; also counts how many fetches were ever issued. -/
  nextId : Nat
deriving DecidableEq

/-- State right after `initialize`: empty last criteria, null capability, and
the collapse class freshly recomputed from the injected collection's contents
(`_refreshCollapsingStatusOfTheResultsView` is called at the end of
`initialize`). -/
def initState {Row : Type} (rows : List Row) : WidgetState Row :=
  { lastSearchCriteria := none
    rejectSlot := none
    collection := rows
    errors := []
    popup := false
    collapsed := rows.isEmpty
    pending := []
    nextId := 0 }

/-- Settlement outcome of an underlying fetch: fulfilled with raw rows, or
rejected with a message-bearing error. -/
inductive FetchOutcome (Row : Type) where
  | success (data : List Row)
  | failure (msg : String)

/-- External events driving the component: a search-input trigger
(`clear` / `submit` / `blur`) carrying the computed criteria, the settlement
of the underlying fetch with issue id `fid`, or an external reset of the
results collection. -/
inductive Event (Row : Type) where
  | trigger (c : Criteria)
  | settle (fid : Nat) (o : FetchOutcome Row)
  | reset (rows : List Row)

/-- Reaction cascade of a flow whose promise was just rejected with the
cancellation error: the `catch` in `_loadSearchResultsIntoTable` does not
discriminate `PromiseRejectedError`, so it clears the fetch-error group, adds
an entry with the error's message `Request is cancelled` and resolves with
`[]`; the flow then resets the collection to `prepare []`, writes its own
criteria into `_lastSearchCriteria`, and `_togglePopupVisibility` shows or
hides the popup by emptiness and recomputes the collapse class. -/
def cancelCascade {Row : Type} (prepare : List Row → List Row)
    (s : WidgetState Row) (oldId : Nat) : WidgetState Row :=
  match s.pending.find? (fun f => f.id == oldId) with
  | none => s
  | some f =>
    let prepared := prepare []
    { s with
      errors := replaceGroup fetchErrorGroup "Request is cancelled" s.errors
      collection := prepared
      lastSearchCriteria := f.criteria
      popup := prepared.isEmpty
      collapsed := prepared.isEmpty }

/-- One search trigger (`_togglePopupVisibility` fired by
`clear` / `submit` / `blur`), with `c` the criteria computed at the top of
`_refreshSearchResults`.  If `c` equals `_lastSearchCriteria`
(`_.isEqual`), the flow resolves with `undefined`: the caller sees a falsy
result, shows the popup and recomputes the collapse class.  Otherwise
`_fetchResultsSingle` invokes the stored rejection capability (if any),
stores a fresh capability for the new fetch and issues it; the superseded
flow's rejection cascade then drains. -/
def processTrigger {Row : Type} (prepare : List Row → List Row)
    (s : WidgetState Row) (c : Criteria) : WidgetState Row :=
  if c = s.lastSearchCriteria then
    { s with popup := true, collapsed := s.collection.isEmpty }
  else
    let fid := s.nextId
    let s1 : WidgetState Row :=
      { s with
        rejectSlot := some fid
        pending :=
          (s.pending.map (fun f =>
            if s.rejectSlot = some f.id then { f with cancelled := true } else f))
          ++ [⟨fid, c, false⟩]
        nextId := fid + 1 }
    match s.rejectSlot with
    | none => s1
    | some oldId => cancelCascade prepare s1 oldId

/-- Settlement of the underlying fetch `fid`.  The handlers installed on it in
`_fetchResultsSingle` set `_rejectLastSearchRequest = null` unconditionally —
even when the field currently holds a newer request's capability — and then
resolve / reject the flow's promise.  If that promise was already rejected by
a supersede, resolving it is a no-op.  Otherwise the flow continues: a
non-cancellation failure is absorbed by the `catch` (error-group replacement,
result `[]`), the data goes through `_prepareDataForResultsView`, the
collection is reset, `_lastSearchCriteria` is written, and the popup and
collapse states are recomputed. -/
def processSettle {Row : Type} (prepare : List Row → List Row)
    (s : WidgetState Row) (fid : Nat) (o : FetchOutcome Row) : WidgetState Row :=
  match s.pending.find? (fun f => f.id == fid) with
  | none => s
  | some f =>
    let s1 : WidgetState Row :=
      { s with
        pending := s.pending.filter (fun g => !(g.id == fid))
        rejectSlot := none }
    if f.cancelled then s1
    else
      let data := match o with
        | .success d => d
        | .failure _ => []
      let prepared := prepare data
      let errs := match o with
        | .success _ => s.errors
        | .failure msg => replaceGroup fetchErrorGroup msg s.errors
      { s1 with
        collection := prepared
        errors := errs
        lastSearchCriteria := f.criteria
        popup := prepared.isEmpty
        collapsed := prepared.isEmpty }

/-- Dispatch one external event; an external collection reset fires the
`reset` event, whose listener recomputes the collapse class. -/
def processEvent {Row : Type} (prepare : List Row → List Row)
    (s : WidgetState Row) : Event Row → WidgetState Row
  | .trigger c => processTrigger prepare s c
  | .settle fid o => processSettle prepare s fid o
  | .reset rows => { s with collection := rows, collapsed := rows.isEmpty }

/-- Run the component from a state through a sequence of external events. -/
def run {Row : Type} (prepare : List Row → List Row)
    (s : WidgetState Row) (es : List (Event Row)) : WidgetState Row :=
  es.foldl (processEvent prepare) s

/-- Claim C1: the claim says a cancelled flow aborts silently, but the code's
`catch` in `_loadSearchResultsIntoTable` swallows the cancellation error
before the `instanceof PromiseRejectedError` guard in
`_togglePopupVisibility` can see it.  Evaluated at the failing input — a
trigger for FirstName = a superseded by a trigger for FirstName = b — the
cancelled flow adds the error entry `Request is cancelled` to the fetch-error
group, resets the results collection to empty, shows the popup and recomputes
the collapse state. -/
theorem C1_cancelled_flow_side_effects :
    (run id (initState ([] : List Nat))
        [.trigger (some "a"), .trigger (some "b")]).errors
      = [⟨fetchErrorGroup, "Request is cancelled"⟩] ∧
    (run id (initState ([] : List Nat))
        [.trigger (some "a"), .trigger (some "b")]).popup = true ∧
    (run id (initState ([] : List Nat))
        [.trigger (some "a"), .trigger (some "b")]).collection = [] ∧
    (run id (initState ([] : List Nat))
        [.trigger (some "a"), .trigger (some "b")]).collapsed = true := by
  decide

/-- Replacing a group leaves exactly one entry of that group in the list. -/
theorem countGroup_replaceGroup (g msg : String) (errs : List ErrorEntry) :
    countGroup g (replaceGroup g msg errs) = 1 := by
  simp [countGroup, replaceGroup, List.filter_filter]

/-- After any settlement of a pending fetch, the capability field is null:
both `then` handlers installed in `_fetchResultsSingle` assign
`_rejectLastSearchRequest = null` unconditionally. -/
theorem settle_clears_slot {Row : Type} (prepare : List Row → List Row)
    (s : WidgetState Row) (fid : Nat) (o : FetchOutcome Row) (f : PendingFetch)
    (hf : s.pending.find? (fun g => g.id == fid) = some f) :
    (processSettle prepare s fid o).rejectSlot = none := by
  simp only [processSettle, hf]
  split
  · rfl
  · rfl

/-- When the capability field is null, a trigger runs no cancellation cascade,
so the form's error list is untouched by the trigger itself. -/
theorem trigger_errors_of_no_slot {Row : Type} (prepare : List Row → List Row)
    (s : WidgetState Row) (c : Criteria) (h : s.rejectSlot = none) :
    (processTrigger prepare s c).errors = s.errors := by
  simp only [processTrigger]
  split
  · rfl
  · simp only [h]

/-- Each event preserves the collapse-class invariant: every write to the
results collection (flow settlement, cancellation cascade, external reset)
triggers `_refreshCollapsingStatusOfTheResultsView`, and the skip path
recomputes it from the unchanged collection. -/
theorem collapse_invariant_step {Row : Type} (prepare : List Row → List Row)
    (s : WidgetState Row) (e : Event Row)
    (h : s.collapsed = s.collection.isEmpty) :
    (processEvent prepare s e).collapsed
      = (processEvent prepare s e).collection.isEmpty := by
  cases e with
  | trigger c =>
    simp only [processEvent, processTrigger]
    split
    · rfl
    · cases hs : s.rejectSlot with
      | none => simpa using h
      | some oldId =>
        simp only [cancelCascade]
        split
        · simpa using h
        · rfl
  | settle fid o =>
    simp only [processEvent, processSettle]
    split
    · exact h
    · split
      · simpa using h
      · rfl
  | reset rows => rfl

/-- The collapse-class invariant is preserved along any event sequence. -/
theorem collapse_invariant_run {Row : Type} (prepare : List Row → List Row)
    (s : WidgetState Row) (es : List (Event Row))
    (h : s.collapsed = s.collection.isEmpty) :
    (run prepare s es).collapsed = (run prepare s es).collection.isEmpty := by
  induction es generalizing s with
  | nil => exact h
  | cons e rest ih =>
    simp only [run, List.foldl_cons] at ih ⊢
    exact ih (processEvent prepare s e) (collapse_invariant_step prepare s e h)

/-- Claim C2: evaluated at the failing interleaving.  Triggers for a, b, c;
the superseded fetch 0 settles between triggers b and c: its handler nulls
`_rejectLastSearchRequest` even though the field holds fetch 1's capability,
so trigger c cancels nothing; fetch 2 (criteria c) then settles before
fetch 1 (criteria b), and fetch 1's late completion overwrites the newer
results — the final collection holds criteria-b rows `[2]`, not the last
triggered criteria's rows `[3]`, and `_lastSearchCriteria` ends at b. -/
theorem C2_stale_completion_overwrites :
    (run id (initState ([] : List Nat))
        [.trigger (some "a"), .trigger (some "b"), .settle 0 (.success [1]),
         .trigger (some "c"), .settle 2 (.success [3]),
         .settle 1 (.success [2])]).collection = [2] ∧
    (run id (initState ([] : List Nat))
        [.trigger (some "a"), .trigger (some "b"), .settle 0 (.success [1]),
         .trigger (some "c"), .settle 2 (.success [3]),
         .settle 1 (.success [2])]).lastSearchCriteria = some "b" ∧
    (run id (initState ([] : List Nat))
        [.trigger (some "a"), .trigger (some "b"), .settle 0 (.success [1]),
         .trigger (some "c"), .settle 2 (.success [3]),
         .settle 1 (.success [2])]).pending = [] := by
  decide

/-- Claim C3: evaluated at the failing input.  After triggers a and b, the
stale settlement of the superseded fetch 0 nulls the capability field; the
next trigger (criteria c) therefore cancels nothing, leaving two live
outstanding requests — the pending fetch 1 is never rejected, violating both
the at-most-one-outstanding invariant and the cancel-before-issue rule. -/
theorem C3_two_outstanding_requests :
    (run id (initState ([] : List Nat))
        [.trigger (some "a"), .trigger (some "b"), .settle 0 (.success [1]),
         .trigger (some "c")]).pending
      = [⟨1, some "b", false⟩, ⟨2, some "c", false⟩] ∧
    (run id (initState ([] : List Nat))
        [.trigger (some "a"), .trigger (some "b"), .settle 0 (.success [1]),
         .trigger (some "c")]).rejectSlot = some 2 := by
  decide

/-- Claim C4, counterexample to the claim as stated: with the caller-supplied
transform mapping every raw result to the one-row list `[7]`, a failed fetch
leaves the results collection non-empty (`_loadSearchResultsIntoTable` feeds
the `[]` produced by the `catch` through `_prepareDataForResultsView`) and
the popup hidden — the claim promised an empty collection and a shown
popup. -/
theorem C4_counterexample :
    (run (fun _ => [7]) (initState ([] : List Nat))
        [.trigger (some "a"), .settle 0 (.failure "boom")]).collection = [7] ∧
    (run (fun _ => [7]) (initState ([] : List Nat))
        [.trigger (some "a"), .settle 0 (.failure "boom")]).popup = false := by
  decide

/-- Claim C4 as amended: when a live (non-cancelled) pending fetch settles
with a non-cancellation failure, the results collection is reset to the
transform applied to the empty raw result (so empty whenever no transform is
given), the fetch-error group is replaced so that exactly one entry — the one
carrying the failure's message — remains in it, and the popup is shown iff
that transformed empty result set is empty. -/
theorem C4_failed_fetch_effects {Row : Type} (prepare : List Row → List Row)
    (s : WidgetState Row) (fid : Nat) (c : Criteria) (msg : String)
    (h : s.pending.find? (fun f => f.id == fid) = some ⟨fid, c, false⟩) :
    (processSettle prepare s fid (.failure msg)).collection = prepare [] ∧
    (processSettle prepare s fid (.failure msg)).errors
      = replaceGroup fetchErrorGroup msg s.errors ∧
    countGroup fetchErrorGroup (processSettle prepare s fid (.failure msg)).errors = 1 ∧
    (processSettle prepare s fid (.failure msg)).popup = (prepare []).isEmpty := by
  simp [processSettle, h, countGroup_replaceGroup]

/-- Claim C4 witness: the amended theorem applied to the concrete state
reached by one trigger for FirstName = a, whose fetch fails with boom. -/
theorem C4_failed_fetch_effects_witness :
    (run id (initState ([] : List Nat)) [.trigger (some "a")]).pending.find?
        (fun f => f.id == 0) = some ⟨0, some "a", false⟩ ∧
    ((processSettle id (run id (initState ([] : List Nat)) [.trigger (some "a")])
        0 (.failure "boom")).collection = id [] ∧
      (processSettle id (run id (initState ([] : List Nat)) [.trigger (some "a")])
        0 (.failure "boom")).errors
        = replaceGroup fetchErrorGroup "boom"
            (run id (initState ([] : List Nat)) [.trigger (some "a")]).errors ∧
      countGroup fetchErrorGroup
        (processSettle id (run id (initState ([] : List Nat)) [.trigger (some "a")])
          0 (.failure "boom")).errors = 1 ∧
      (processSettle id (run id (initState ([] : List Nat)) [.trigger (some "a")])
        0 (.failure "boom")).popup = (id ([] : List Nat)).isEmpty) :=
  ⟨by decide,
   C4_failed_fetch_effects id
     (run id (initState ([] : List Nat)) [.trigger (some "a")])
     0 (some "a") "boom" (by decide)⟩

/-- Claim C5, counterexample to the claim as stated: two consecutive triggers
with the same criteria FirstName = a, the second arriving while the first
fetch is still pending, issue two fetches — `_lastSearchCriteria` is only
updated after a flow settles, so the skip check does not fire and the second
trigger cancels the first request and issues a new one. -/
theorem C5_counterexample :
    (run id (initState ([] : List Nat))
        [.trigger (some "a"), .trigger (some "a")]).nextId = 2 ∧
    (run id (initState ([] : List Nat))
        [.trigger (some "a"), .trigger (some "a")]).pending
      = [⟨0, some "a", true⟩, ⟨1, some "a", false⟩] := by
  decide

/-- Claim C5 as amended: a trigger whose computed criteria equal the recorded
`_lastSearchCriteria` — which is the case for the second of two equal-criteria
triggers only once the first flow has settled and recorded its criteria —
issues no request: the fetch counter, the outstanding-fetch list and the
results collection are untouched, and the flow resolves with no results. -/
theorem C5_skip_on_unchanged_criteria {Row : Type} (prepare : List Row → List Row)
    (s : WidgetState Row) (c : Criteria) (h : c = s.lastSearchCriteria) :
    (processTrigger prepare s c).nextId = s.nextId ∧
    (processTrigger prepare s c).pending = s.pending ∧
    (processTrigger prepare s c).collection = s.collection := by
  simp [processTrigger, h]

/-- Claim C5 witness: after a settled search for FirstName = a, a second
trigger with the same criteria takes the skip path. -/
theorem C5_skip_on_unchanged_criteria_witness :
    (some "a" : Criteria)
      = (run id (initState ([] : List Nat))
          [.trigger (some "a"), .settle 0 (.success [5])]).lastSearchCriteria ∧
    ((processTrigger id (run id (initState ([] : List Nat))
          [.trigger (some "a"), .settle 0 (.success [5])]) (some "a")).nextId
        = (run id (initState ([] : List Nat))
            [.trigger (some "a"), .settle 0 (.success [5])]).nextId ∧
      (processTrigger id (run id (initState ([] : List Nat))
          [.trigger (some "a"), .settle 0 (.success [5])]) (some "a")).pending
        = (run id (initState ([] : List Nat))
            [.trigger (some "a"), .settle 0 (.success [5])]).pending ∧
      (processTrigger id (run id (initState ([] : List Nat))
          [.trigger (some "a"), .settle 0 (.success [5])]) (some "a")).collection
        = (run id (initState ([] : List Nat))
            [.trigger (some "a"), .settle 0 (.success [5])]).collection) :=
  ⟨by decide,
   C5_skip_on_unchanged_criteria id
     (run id (initState ([] : List Nat)) [.trigger (some "a"), .settle 0 (.success [5])])
     (some "a") (by decide)⟩

/-- Claim C6, counterexample to the claim as stated: from the freshly
initialized component (popup hidden) a trigger on the unrendered component
computes the empty criteria, equal to the initial `_lastSearchCriteria`, and
takes the skip path — yet the popup becomes visible, because
`_togglePopupVisibility` treats the skip flow's `undefined` result as an
absence of results and calls `show()`. -/
theorem C6_counterexample :
    (initState ([] : List Nat)).popup = false ∧
    (run id (initState ([] : List Nat)) [.trigger none]).popup = true := by
  decide

/-- Claim C6 as amended: a trigger that takes the skip path (computed
criteria equal to the recorded last criteria) always leaves the popup shown —
the caller does not distinguish a skipped flow from an empty result — and
recomputes the collapse class from the unchanged collection. -/
theorem C6_skip_shows_popup {Row : Type} (prepare : List Row → List Row)
    (s : WidgetState Row) (c : Criteria) (h : c = s.lastSearchCriteria) :
    (processTrigger prepare s c).popup = true ∧
    (processTrigger prepare s c).collapsed = s.collection.isEmpty := by
  simp [processTrigger, h]

/-- Claim C6 witness: the amended theorem applied to the freshly initialized
component and the empty criteria of an unrendered trigger. -/
theorem C6_skip_shows_popup_witness :
    (none : Criteria) = (initState ([] : List Nat)).lastSearchCriteria ∧
    ((processTrigger id (initState ([] : List Nat)) none).popup = true ∧
      (processTrigger id (initState ([] : List Nat)) none).collapsed
        = (initState ([] : List Nat)).collection.isEmpty) :=
  ⟨by decide, C6_skip_shows_popup id (initState []) none (by decide)⟩

/-- Claim C7, counterexample to the claim as stated: a fetch for
FirstName = c fails with boom, and a subsequent trigger with the same
criteria issues no new fetch — the fetch counter stays at one, because the
failed flow still recorded its criteria into `_lastSearchCriteria` and the
skip check fires. -/
theorem C7_counterexample :
    (run id (initState ([] : List Nat))
        [.trigger (some "c"), .settle 0 (.failure "boom"),
         .trigger (some "c")]).nextId = 1 := by
  decide

/-- Claim C7 as amended: a flow whose fetch fails with a non-cancellation
error still records its criteria into `_lastSearchCriteria`, so a subsequent
trigger with the same criteria takes the skip path and issues no new fetch;
retrying the failed criteria requires an intervening trigger with different
criteria. -/
theorem C7_failure_blocks_same_criteria_retry {Row : Type}
    (prepare : List Row → List Row) (s : WidgetState Row)
    (fid : Nat) (c : Criteria) (msg : String)
    (h : s.pending.find? (fun f => f.id == fid) = some ⟨fid, c, false⟩) :
    (processSettle prepare s fid (.failure msg)).lastSearchCriteria = c ∧
    (processTrigger prepare (processSettle prepare s fid (.failure msg)) c).nextId
      = (processSettle prepare s fid (.failure msg)).nextId ∧
    (processTrigger prepare (processSettle prepare s fid (.failure msg)) c).pending
      = (processSettle prepare s fid (.failure msg)).pending := by
  simp [processSettle, processTrigger, h]

/-- Claim C7 witness: the amended theorem applied to the concrete state of a
single trigger for FirstName = c whose fetch fails with boom. -/
theorem C7_failure_blocks_same_criteria_retry_witness :
    (run id (initState ([] : List Nat)) [.trigger (some "c")]).pending.find?
        (fun f => f.id == 0) = some ⟨0, some "c", false⟩ ∧
    ((processSettle id (run id (initState ([] : List Nat)) [.trigger (some "c")])
        0 (.failure "boom")).lastSearchCriteria = some "c" ∧
      (processTrigger id (processSettle id
          (run id (initState ([] : List Nat)) [.trigger (some "c")])
          0 (.failure "boom")) (some "c")).nextId
        = (processSettle id (run id (initState ([] : List Nat)) [.trigger (some "c")])
            0 (.failure "boom")).nextId ∧
      (processTrigger id (processSettle id
          (run id (initState ([] : List Nat)) [.trigger (some "c")])
          0 (.failure "boom")) (some "c")).pending
        = (processSettle id (run id (initState ([] : List Nat)) [.trigger (some "c")])
            0 (.failure "boom")).pending) :=
  ⟨by decide,
   C7_failure_blocks_same_criteria_retry id
     (run id (initState ([] : List Nat)) [.trigger (some "c")])
     0 (some "c") "boom" (by decide)⟩

/-- Claim C8: when a live (non-cancelled, hence non-skipped) pending fetch
settles successfully, `_togglePopupVisibility` shows the popup iff the rows
produced by `_prepareDataForResultsView` are empty — with one or more rows it
hides the popup — and the results collection is replaced wholesale by those
transformed rows. -/
theorem C8_popup_iff_no_transformed_rows {Row : Type}
    (prepare : List Row → List Row) (s : WidgetState Row)
    (fid : Nat) (c : Criteria) (d : List Row)
    (h : s.pending.find? (fun f => f.id == fid) = some ⟨fid, c, false⟩) :
    (processSettle prepare s fid (.success d)).popup = (prepare d).isEmpty ∧
    (processSettle prepare s fid (.success d)).collection = prepare d := by
  simp [processSettle, h]

/-- Claim C8 witness: a trigger for FirstName = a whose fetch fulfills with
one row hides the popup and loads that row. -/
theorem C8_popup_iff_no_transformed_rows_witness :
    (run id (initState ([] : List Nat)) [.trigger (some "a")]).pending.find?
        (fun f => f.id == 0) = some ⟨0, some "a", false⟩ ∧
    ((processSettle id (run id (initState ([] : List Nat)) [.trigger (some "a")])
        0 (.success [1])).popup = (id [1]).isEmpty ∧
      (processSettle id (run id (initState ([] : List Nat)) [.trigger (some "a")])
        0 (.success [1])).collection = id [1]) :=
  ⟨by decide,
   C8_popup_iff_no_transformed_rows id
     (run id (initState ([] : List Nat)) [.trigger (some "a")])
     0 (some "a") [1] (by decide)⟩

/-- Claim C9: along every event sequence from the freshly initialized
component — construction, triggers, fetch settlements and external resets of
the results collection — the collapse class is present on the root element
iff the results collection is empty. -/
theorem C9_collapse_iff_empty {Row : Type} (prepare : List Row → List Row)
    (rows : List Row) (es : List (Event Row)) :
    (run prepare (initState rows) es).collapsed
      = (run prepare (initState rows) es).collection.isEmpty :=
  collapse_invariant_run prepare (initState rows) es rfl

/-- Claim C10: whenever the underlying fetch of a `_fetchResultsSingle` call
settles — fulfilled or rejected, its flow live or already superseded — the
handlers set `_rejectLastSearchRequest` back to null, and a subsequent
trigger's cancellation step is therefore a no-op: it runs no cancellation
cascade, so it adds no error entry. -/
theorem C10_slot_cleared_on_settle {Row : Type} (prepare : List Row → List Row)
    (s : WidgetState Row) (fid : Nat) (o : FetchOutcome Row) (c2 : Criteria)
    (h : (s.pending.find? (fun f => f.id == fid)).isSome) :
    (processSettle prepare s fid o).rejectSlot = none ∧
    (processTrigger prepare (processSettle prepare s fid o) c2).errors
      = (processSettle prepare s fid o).errors := by
  obtain ⟨f, hf⟩ := Option.isSome_iff_exists.mp h
  have h1 := settle_clears_slot prepare s fid o f hf
  exact ⟨h1, trigger_errors_of_no_slot prepare _ c2 h1⟩

/-- Claim C10 witness: the settlement of the single pending fetch clears the
capability field, and a following trigger with fresh criteria adds no error. -/
theorem C10_slot_cleared_on_settle_witness :
    ((run id (initState ([] : List Nat)) [.trigger (some "a")]).pending.find?
        (fun f => f.id == 0)).isSome ∧
    ((processSettle id (run id (initState ([] : List Nat)) [.trigger (some "a")])
        0 (.success [1])).rejectSlot = none ∧
      (processTrigger id (processSettle id
          (run id (initState ([] : List Nat)) [.trigger (some "a")])
          0 (.success [1])) (some "z")).errors
        = (processSettle id (run id (initState ([] : List Nat)) [.trigger (some "a")])
            0 (.success [1])).errors) :=
  ⟨by decide,
   C10_slot_cleared_on_settle id
     (run id (initState ([] : List Nat)) [.trigger (some "a")])
     0 (.success [1]) (some "z") (by decide)⟩
